import Mathlib

/-!
Shallow embedding of `trader/okx_trader.go` from the `nofx` repository.

The exchange SDK (`github.com/Benjmmi/okx`) is an external collaborator: its
responses are modelled as plain records whose numeric fields are already
parsed to rationals (the gateway's own `strconv.ParseFloat` calls ignore
their errors, so parsing is abstracted away).  Go `nil` slices are modelled
as `Option.none`; a non-nil empty slice is `some []`.  Time is an abstract
monotone counter in seconds.  A Go runtime panic (index out of range) is
recorded in a `panicked` field of the outcome rather than crashing.
-/

namespace NoFx

/-- Time in seconds, as an abstract tick counter. -/
abbrev Time := Nat

/-- `cacheDuration = 15 * time.Second` from `NewOkxTrader`. -/
def cacheDuration : Time := 15

/-- The post-leverage-change cooldown: `time.Sleep(5 * time.Second)`. -/
def leverageCooldown : Nat := 5

/-- One entry of the SDK balance response (`balance.Balances[i]`), fields
already parsed from their decimal strings. -/
structure BalanceEntry where
  totalEq : ℚ
  availEq : ℚ
  upl : ℚ
deriving Repr, DecidableEq

/-- The result map built by `GetBalance`. -/
structure Balance where
  totalWalletBalance : ℚ
  availableBalance : ℚ
  totalUnrealizedProfit : ℚ
deriving Repr, DecidableEq

/-- Lines 70-73 of `GetBalance`: shape the first balance entry into the
result map. -/
def mkBalance (a : BalanceEntry) : Balance :=
  { totalWalletBalance := a.totalEq
    availableBalance := a.availEq
    totalUnrealizedProfit := a.upl }

/-- Outcome of `t.client.Rest.Account.GetBalance`: `err` is a transport
error (`err != nil`); `balances` is the `Balances` slice, `none` for a Go
nil slice, `some []` for a decoded empty slice. -/
structure BalanceResp where
  err : Bool
  balances : Option (List BalanceEntry)
deriving Repr, DecidableEq

/-- One raw position record of the SDK positions response. -/
structure RawPosition where
  instType : String
  instID : String
  pos : ℚ
  avgPx : ℚ
  markPx : ℚ
  upl : ℚ
  lever : ℚ
  liqPx : ℚ
  posSide : String
deriving Repr, DecidableEq

/-- The per-position map built by `GetPositions` (lines 479-489). -/
structure Position where
  symbol : String
  positionAmt : ℚ
  entryPrice : ℚ
  markPrice : ℚ
  unRealizedProfit : ℚ
  leverage : ℚ
  liquidationPrice : ℚ
  side : String
deriving Repr, DecidableEq

/-- Lines 479-489 of `GetPositions`: note `posMap["symbol"] = pos.InstType`. -/
def toPosition (p : RawPosition) : Position :=
  { symbol := p.instType
    positionAmt := p.pos
    entryPrice := p.avgPx
    markPrice := p.markPx
    unRealizedProfit := p.upl
    leverage := p.lever
    liquidationPrice := p.liqPx
    side := p.posSide }

/-- The ingestion loop of `GetPositions`: skip `pos.Pos == 0`, shape the
rest. -/
def ingestPositions (l : List RawPosition) : List Position :=
  (l.filter (fun p => decide (p.pos ≠ 0))).map toPosition

/-- Outcome of `t.client.Rest.Account.GetPositions`. -/
structure PositionsResp where
  err : Bool
  code : Int
  positions : List RawPosition
deriving Repr, DecidableEq

/-- The cache fields of `OkxTrader`.  `none` models a Go nil map/slice. -/
structure TraderState where
  cachedBalance : Option Balance
  balanceCacheTime : Time
  cachedPositions : Option (List Position)
  positionsCacheTime : Time
deriving Repr, DecidableEq

/-- A fresh `OkxTrader`: both caches nil. -/
def initialState : TraderState :=
  { cachedBalance := none
    balanceCacheTime := 0
    cachedPositions := none
    positionsCacheTime := 0 }

/-- `var result []map...` built by appends is nil exactly when no element
was appended; `GetPositions` stores that slice into the cache. -/
def toGoSlice (l : List Position) : Option (List Position) :=
  if l.isEmpty then none else some l

/-- Observable outcome of one `GetBalance` call. -/
structure BalanceCall where
  result : Option Balance
  error : Option String
  panicked : Bool
  fetched : Bool
  state : TraderState
deriving Repr, DecidableEq

/-- The refresh path of `GetBalance` (lines 62-84): API call, the
`err != nil || balance.Balances == nil` check, `balance.Balances[0]`
indexing, cache update. -/
def refreshBalance (st : TraderState) (now : Time) (fetch : BalanceResp) :
    BalanceCall :=
  if fetch.err = true then
    { result := none, error := some "get account info failed", panicked := false
      fetched := true, state := st }
  else
    match fetch.balances with
    | none =>
        { result := none, error := some "get account info failed"
          panicked := false, fetched := true, state := st }
    | some [] =>
        { result := none, error := none, panicked := true
          fetched := true, state := st }
    | some (a :: _) =>
        let r := mkBalance a
        { result := some r, error := none, panicked := false, fetched := true
          state := { st with cachedBalance := some r, balanceCacheTime := now } }

/-- `GetBalance` (lines 50-85): serve from cache when
`cachedBalance != nil && time.Since(balanceCacheTime) < cacheDuration`,
otherwise refresh. -/
def getBalance (st : TraderState) (now : Time) (fetch : BalanceResp) :
    BalanceCall :=
  match st.cachedBalance with
  | some b =>
      if now - st.balanceCacheTime < cacheDuration then
        { result := some b, error := none, panicked := false, fetched := false
          state := st }
      else refreshBalance st now fetch
  | none => refreshBalance st now fetch

/-- Observable outcome of one `GetPositions` call.  `result` is the
returned slice (a Go nil slice behaves as `[]` for the callers that
iterate over it). -/
structure PositionsCall where
  result : List Position
  error : Option String
  fetched : Bool
  state : TraderState
deriving Repr, DecidableEq

/-- The refresh path of `GetPositions` (lines 464-500): API call, the
`err != nil || positionsResp.Code != 0` check, ingestion, cache update. -/
def refreshPositions (st : TraderState) (now : Time) (fetch : PositionsResp) :
    PositionsCall :=
  if fetch.err = true ∨ fetch.code ≠ 0 then
    { result := [], error := some "get positions failed", fetched := true
      state := st }
  else
    let r := ingestPositions fetch.positions
    { result := r, error := none, fetched := true
      state := { st with cachedPositions := toGoSlice r, positionsCacheTime := now } }

/-- `GetPositions` (lines 452-501): serve from cache when
`cachedPositions != nil && time.Since(positionsCacheTime) < cacheDuration`,
otherwise refresh. -/
def getPositions (st : TraderState) (now : Time) (fetch : PositionsResp) :
    PositionsCall :=
  match st.cachedPositions with
  | some l =>
      if now - st.positionsCacheTime < cacheDuration then
        { result := l, error := none, fetched := false, state := st }
      else refreshPositions st now fetch
  | none => refreshPositions st now fetch

/-- Outcome of `t.client.Rest.Account.SetLeverage` (the SDK call). -/
structure LevResp where
  err : Bool
  code : Int
deriving Repr, DecidableEq

/-- Go `int(lev)` on a `float64`: truncation toward zero. -/
def truncInt (q : ℚ) : Int :=
  if 0 ≤ q then ⌊q⌋ else -⌊-q⌋

/-- The observed-leverage scan of `SetLeverage` (lines 303-311): first
position whose `symbol` field equals the argument decides
`currentLeverage`; no match leaves it `0`. -/
def findLeverage (symbol : String) : List Position → Int
  | [] => 0
  | p :: rest =>
      if p.symbol = symbol then truncInt p.leverage else findLeverage symbol rest

/-- Observable outcome of one `SetLeverage` method call.  `wrote` records
that the leverage-change network call was issued; `sleptFor` the seconds
spent in `time.Sleep`. -/
structure SetLevCall where
  error : Option String
  posFetched : Bool
  wrote : Bool
  sleptFor : Nat
  state : TraderState
deriving Repr, DecidableEq

/-- `SetLeverage` (lines 298-337): read positions (cache-aware), skip when
`currentLeverage == leverage && currentLeverage > 0`, otherwise issue the
change (`Code != 0` is failure) and on success sleep 5 seconds. -/
def setLeverageOp (st : TraderState) (now : Time) (symbol : String)
    (leverage : Int) (posFetch : PositionsResp) (levResp : LevResp) :
    SetLevCall :=
  let pc := getPositions st now posFetch
  let currentLeverage : Int :=
    if pc.error = none then findLeverage symbol pc.result else 0
  if currentLeverage = leverage ∧ 0 < currentLeverage then
    { error := none, posFetched := pc.fetched, wrote := false, sleptFor := 0
      state := pc.state }
  else if levResp.err = true ∨ levResp.code ≠ 0 then
    { error := some "set leverage failed", posFetched := pc.fetched
      wrote := true, sleptFor := 0, state := pc.state }
  else
    { error := none, posFetched := pc.fetched, wrote := true
      sleptFor := leverageCooldown, state := pc.state }

/-- One instrument record of the SDK `GetInstruments` response. -/
structure InstrumentRec where
  instID : String
  lotSz : ℚ
  ctVal : ℚ
deriving Repr, DecidableEq

/-- Outcome of `t.client.Rest.PublicData.GetInstruments`. -/
structure InstrumentsResp where
  err : Bool
  code : Int
  instruments : List InstrumentRec
deriving Repr, DecidableEq

/-- The instrument scan of `GetSymbolPrecision`: first entry with
`InstID == symbol`. -/
def findInst (symbol : String) : List InstrumentRec → Option InstrumentRec
  | [] => none
  | s :: rest => if s.instID = symbol then some s else findInst symbol rest

/-- Auxiliary loop for `calculatePrecision`: count how many times the step
must be scaled by 10 before it becomes an integer (bounded fuel). -/
def calcPrecAux : Nat → ℚ → Nat
  | 0, _ => 0
  | n + 1, q => if q.den = 1 then 0 else 1 + calcPrecAux n (q * 10)

/-- Modelled from the spec: `calculatePrecision` is defined elsewhere in
the `trader` package (not in this file's source); per the spec it derives
precision from the step size by counting significant fractional digits
(step `0.001` gives 3, step `1` gives 0). -/
def calculatePrecision (step : ℚ) : Nat :=
  calcPrecAux 18 step

/-- `GetSymbolPrecision` (lines 542-563): transport error propagates; a
matching instrument yields its derived precision; no match yields the
default 3 with a nil error.  The response status code is not checked. -/
def getSymbolPrecision (fetch : InstrumentsResp) (symbol : String) :
    Nat × Option String :=
  if fetch.err = true then (0, some "get instrument rules failed")
  else
    match findInst symbol fetch.instruments with
    | some s => (calculatePrecision s.lotSz, none)
    | none => (3, none)

/-- Left-pad a digit string with zeros to the given length. -/
def padZeros (n : Nat) (s : String) : String :=
  String.mk (List.replicate (n - s.length) '0') ++ s

/-- Model of Go `fmt.Sprintf` with a fixed-point verb of the given
precision: round the scaled value to the nearest integer and render the
integer and fractional digits. -/
def formatFixed (p : Nat) (q : ℚ) : String :=
  let scaled : ℤ := round (q * (10 : ℚ) ^ p)
  let sign := if scaled < 0 then "-" else ""
  let m := scaled.natAbs
  if p = 0 then sign ++ toString m
  else sign ++ toString (m / 10 ^ p) ++ "." ++ padZeros p (toString (m % 10 ^ p))

/-- `FormatQuantity` (lines 530-539): on a precision-resolution error fall
back to the `"%.3f"` format with a nil error; otherwise format to the
resolved precision, also with a nil error. -/
def formatQuantity (fetch : InstrumentsResp) (symbol : String) (q : ℚ) :
    String × Option String :=
  match getSymbolPrecision fetch symbol with
  | (_, some _) => (formatFixed 3 q, none)
  | (p, none) => (formatFixed p q, none)

/-- One record of the SDK `GetOrderList` response. -/
structure OrderRec where
  instID : String
  algoID : Int
deriving Repr, DecidableEq

/-- Outcome of `t.client.Rest.Trade.GetOrderList`. -/
structure OrderListResp where
  err : Bool
  orders : List OrderRec
deriving Repr, DecidableEq

/-- Outcome of a plain code-bearing SDK call (`CancelAlgoOrder`,
`ClosePosition`). -/
structure CodeResp where
  err : Bool
  code : Int
deriving Repr, DecidableEq

/-- Observable outcome of one `CancelAllOrders` call.  `cancelReq` is the
batch-cancel request actually built (instrument, algo-order-id pairs). -/
structure CancelCall where
  error : Option String
  cancelIssued : Bool
  cancelReq : List (String × Int)
deriving Repr, DecidableEq

/-- `CancelAllOrders` (lines 504-527): list ALL open algo orders (the
request carries no symbol filter), return nil when the list is empty,
otherwise batch-cancel every listed order. -/
def cancelAllOrders (_symbol : String) (listResp : OrderListResp)
    (cancelResp : CodeResp) : CancelCall :=
  if listResp.err = true then
    { error := some "list orders failed", cancelIssued := false, cancelReq := [] }
  else if listResp.orders.isEmpty then
    { error := none, cancelIssued := false, cancelReq := [] }
  else
    let req := listResp.orders.map fun o => (o.instID, o.algoID)
    if cancelResp.err = true ∨ cancelResp.code ≠ 0 then
      { error := some "cancel orders failed", cancelIssued := true, cancelReq := req }
    else
      { error := none, cancelIssued := true, cancelReq := req }

/-- One record of the SDK `PlaceOrder` response (`orderResp.PlaceOrders[i]`). -/
structure PlaceOrderRec where
  ordID : Int
  sCode : Int
deriving Repr, DecidableEq

/-- Outcome of `t.client.Rest.Trade.PlaceOrder`. -/
structure PlaceOrderResp where
  err : Bool
  code : Int
  placeOrders : List PlaceOrderRec
deriving Repr, DecidableEq

/-- The market-order request built by `OpenLong`/`OpenShort`. -/
structure PlaceOrderReq where
  instID : String
  tdMode : String
  side : String
  posSide : String
  ordType : String
  sz : ℚ
deriving Repr, DecidableEq

/-- The result map returned by `OpenLong`/`OpenShort` on success. -/
structure OrderResult where
  orderId : Int
  symbol : String
  status : Int
deriving Repr, DecidableEq

/-- Observable outcome of one `OpenLong`/`OpenShort` call.  `orderReq` is
the order-placement request actually sent (`none` when the operation
aborted before placing an order). -/
structure OpenCall where
  result : Option OrderResult
  error : Option String
  panicked : Bool
  orderReq : Option PlaceOrderReq
deriving Repr, DecidableEq

/-- Common body of `OpenLong` (lines 88-137) and `OpenShort` (lines
140-189), differing only in the side strings.  Step order: best-effort
`CancelAllOrders` (error only logged), the leverage-change call with the
`err != nil || resp.Code != 200` guard returning `nil, err`, quantity
formatting, the market order with the `err != nil || orderResp.Code != 0`
guard, then `orderResp.PlaceOrders[0]`. -/
def openWithSides (side posSide : String) (failMsg : String) (symbol : String)
    (quantity : ℚ) (_leverage : Int) (listResp : OrderListResp)
    (cancelResp : CodeResp) (levResp : LevResp) (instFetch : InstrumentsResp)
    (orderResp : PlaceOrderResp) : OpenCall :=
  let _c := cancelAllOrders symbol listResp cancelResp
  if levResp.err = true ∨ levResp.code ≠ 200 then
    { result := none
      error := if levResp.err = true then some "transport error" else none
      panicked := false, orderReq := none }
  else
    match formatQuantity instFetch symbol quantity with
    | (_, some e) => { result := none, error := some e, panicked := false, orderReq := none }
    | (_, none) =>
        let req : PlaceOrderReq :=
          { instID := symbol, tdMode := "cross", side := side, posSide := posSide
            ordType := "market", sz := quantity }
        if orderResp.err = true ∨ orderResp.code ≠ 0 then
          { result := none, error := some failMsg, panicked := false
            orderReq := some req }
        else
          match orderResp.placeOrders with
          | [] => { result := none, error := none, panicked := true
                    orderReq := some req }
          | o :: _ =>
              { result := some { orderId := o.ordID, symbol := symbol, status := o.sCode }
                error := none, panicked := false, orderReq := some req }

/-- `OpenLong`: buy/long market order. -/
def openLong (symbol : String) (quantity : ℚ) (leverage : Int)
    (listResp : OrderListResp) (cancelResp : CodeResp) (levResp : LevResp)
    (instFetch : InstrumentsResp) (orderResp : PlaceOrderResp) : OpenCall :=
  openWithSides "buy" "long" "open long failed" symbol quantity leverage
    listResp cancelResp levResp instFetch orderResp

/-- `OpenShort`: sell/short market order. -/
def openShort (symbol : String) (quantity : ℚ) (leverage : Int)
    (listResp : OrderListResp) (cancelResp : CodeResp) (levResp : LevResp)
    (instFetch : InstrumentsResp) (orderResp : PlaceOrderResp) : OpenCall :=
  openWithSides "sell" "short" "open short failed" symbol quantity leverage
    listResp cancelResp levResp instFetch orderResp

/-- The zero-quantity resolution loop of `CloseLong` (lines 200-205):
first position matching symbol and side `"long"` supplies `positionAmt`. -/
def findCloseQtyLong (symbol : String) : List Position → ℚ
  | [] => 0
  | p :: rest =>
      if p.symbol = symbol ∧ p.side = "long" then p.positionAmt
      else findCloseQtyLong symbol rest

/-- The zero-quantity resolution loop of `CloseShort` (lines 254-259):
first position matching symbol and side `"short"` supplies the negation of
its (negative) `positionAmt`. -/
def findCloseQtyShort (symbol : String) : List Position → ℚ
  | [] => 0
  | p :: rest =>
      if p.symbol = symbol ∧ p.side = "short" then -p.positionAmt
      else findCloseQtyShort symbol rest

/-- The result map returned by `CloseLong`/`CloseShort`. -/
structure CloseResult where
  symbol : String
  status : Int
deriving Repr, DecidableEq

/-- Observable outcome of one `CloseLong`/`CloseShort` call.
`resolvedQty` is the close quantity in use once resolution finished;
`closeIssued` records whether the `ClosePosition` network call was made. -/
structure CloseCall where
  result : Option CloseResult
  error : Option String
  resolvedQty : Option ℚ
  closeIssued : Bool
  fetchedPositions : Bool
  state : TraderState
deriving Repr, DecidableEq

/-- Tail of `CloseLong`/`CloseShort` after quantity resolution: format the
quantity, issue `ClosePosition` with the `err != nil || Code != 0` guard,
then best-effort `CancelAllOrders` (error only logged). -/
def closeAfterResolve (failMsg : String) (st : TraderState) (symbol : String)
    (q : ℚ) (fetched : Bool) (instFetch : InstrumentsResp)
    (closeResp : CodeResp) (listResp : OrderListResp) (cancelResp : CodeResp) :
    CloseCall :=
  match formatQuantity instFetch symbol q with
  | (_, some e) =>
      { result := none, error := some e, resolvedQty := some q
        closeIssued := false, fetchedPositions := fetched, state := st }
  | (_, none) =>
      if closeResp.err = true ∨ closeResp.code ≠ 0 then
        { result := none, error := some failMsg, resolvedQty := some q
          closeIssued := true, fetchedPositions := fetched, state := st }
      else
        let _c := cancelAllOrders symbol listResp cancelResp
        { result := some { symbol := symbol, status := closeResp.code }
          error := none, resolvedQty := some q, closeIssued := true
          fetchedPositions := fetched, state := st }

/-- `CloseLong` (lines 192-243): resolve a zero quantity from the cached
positions (error `NoPositionFound` when it stays zero), then close. -/
def closeLong (st : TraderState) (now : Time) (symbol : String) (quantity : ℚ)
    (posFetch : PositionsResp) (instFetch : InstrumentsResp)
    (closeResp : CodeResp) (listResp : OrderListResp) (cancelResp : CodeResp) :
    CloseCall :=
  if quantity = 0 then
    let pc := getPositions st now posFetch
    match pc.error with
    | some e =>
        { result := none, error := some e, resolvedQty := none
          closeIssued := false, fetchedPositions := pc.fetched, state := pc.state }
    | none =>
        let q := findCloseQtyLong symbol pc.result
        if q = 0 then
          { result := none, error := some "no long position found"
            resolvedQty := none, closeIssued := false
            fetchedPositions := pc.fetched, state := pc.state }
        else
          closeAfterResolve "close long failed" pc.state symbol q pc.fetched
            instFetch closeResp listResp cancelResp
  else
    closeAfterResolve "close long failed" st symbol quantity false instFetch
      closeResp listResp cancelResp

/-- `CloseShort` (lines 246-295): as `CloseLong` with side `"short"` and
the negated stored quantity. -/
def closeShort (st : TraderState) (now : Time) (symbol : String) (quantity : ℚ)
    (posFetch : PositionsResp) (instFetch : InstrumentsResp)
    (closeResp : CodeResp) (listResp : OrderListResp) (cancelResp : CodeResp) :
    CloseCall :=
  if quantity = 0 then
    let pc := getPositions st now posFetch
    match pc.error with
    | some e =>
        { result := none, error := some e, resolvedQty := none
          closeIssued := false, fetchedPositions := pc.fetched, state := pc.state }
    | none =>
        let q := findCloseQtyShort symbol pc.result
        if q = 0 then
          { result := none, error := some "no short position found"
            resolvedQty := none, closeIssued := false
            fetchedPositions := pc.fetched, state := pc.state }
        else
          closeAfterResolve "close short failed" pc.state symbol q pc.fetched
            instFetch closeResp listResp cancelResp
  else
    closeAfterResolve "close short failed" st symbol quantity false instFetch
      closeResp listResp cancelResp

/-- A raw exchange position used in the repeated-`SetLeverage` scenario:
instrument `BTC-USDT-SWAP` of instrument type `FUTURES`, already at
leverage 10. -/
def rawBtcPos : RawPosition :=
  { instType := "FUTURES", instID := "BTC-USDT-SWAP", pos := 1, avgPx := 0
    markPx := 0, upl := 0, lever := 10, liqPx := 0, posSide := "long" }

/-- First `SetLeverage("BTC-USDT-SWAP", 10)` call, from a fresh trader at
time 100; the positions fetch and the leverage change both succeed. -/
def levCall1 : SetLevCall :=
  setLeverageOp initialState 100 "BTC-USDT-SWAP" 10
    { err := false, code := 0, positions := [rawBtcPos] } { err := false, code := 0 }

/-- Second `SetLeverage("BTC-USDT-SWAP", 10)` call, 6 seconds later (right
after the first call's cooldown), threading the first call's state. -/
def levCall2 : SetLevCall :=
  setLeverageOp levCall1.state 106 "BTC-USDT-SWAP" 10
    { err := false, code := 0, positions := [rawBtcPos] } { err := false, code := 0 }

/-- A concrete cached balance value. -/
def bW : Balance := { totalWalletBalance := 1, availableBalance := 2, totalUnrealizedProfit := 3 }

/-- A trader state whose balance cache was refreshed at time 100. -/
def c4state : TraderState :=
  { cachedBalance := some bW, balanceCacheTime := 100
    cachedPositions := none, positionsCacheTime := 0 }

/-- A cached short position on symbol `BTC-FUTURES` with stored quantity
`-3`. -/
def shortPosW : Position :=
  { symbol := "BTC-FUTURES", positionAmt := -3, entryPrice := 0, markPrice := 0
    unRealizedProfit := 0, leverage := 10, liquidationPrice := 0, side := "short" }

/-- A trader state whose positions cache holds `shortPosW`, refreshed at
time 100. -/
def c6state : TraderState :=
  { cachedBalance := none, balanceCacheTime := 0
    cachedPositions := some [shortPosW], positionsCacheTime := 100 }

/-! ## Helper lemmas -/

theorem refreshBalance_fetched (st : TraderState) (now : Time) (f : BalanceResp) :
    (refreshBalance st now f).fetched = true := by
  unfold refreshBalance
  split
  · rfl
  · split <;> rfl

theorem refreshBalance_fail (st : TraderState) (now : Time) (f : BalanceResp)
    (h : f.err = true ∨ f.balances = none) :
    refreshBalance st now f =
      { result := none, error := some "get account info failed"
        panicked := false, fetched := true, state := st } := by
  unfold refreshBalance
  rcases h with h | h
  · simp [h]
  · cases he : f.err
    · simp [he, h]
    · simp [he]

theorem refreshBalance_success (st : TraderState) (now : Time) (f : BalanceResp)
    (a : BalanceEntry) (rest : List BalanceEntry)
    (he : f.err = false) (hb : f.balances = some (a :: rest)) :
    refreshBalance st now f =
      { result := some (mkBalance a), error := none, panicked := false
        fetched := true
        state := { st with cachedBalance := some (mkBalance a), balanceCacheTime := now } } := by
  unfold refreshBalance
  simp [he, hb]

theorem getBalance_hit (st : TraderState) (now : Time) (bf : BalanceResp)
    (b : Balance) (hb : st.cachedBalance = some b)
    (hlt : now - st.balanceCacheTime < cacheDuration) :
    getBalance st now bf =
      { result := some b, error := none, panicked := false, fetched := false
        state := st } := by
  unfold getBalance
  rw [hb]
  simp [hlt]

theorem getBalance_miss (st : TraderState) (now : Time) (bf : BalanceResp)
    (h : st.cachedBalance = none ∨ cacheDuration ≤ now - st.balanceCacheTime) :
    getBalance st now bf = refreshBalance st now bf := by
  unfold getBalance
  cases hcb : st.cachedBalance with
  | none => rfl
  | some b =>
      have hn : ¬ (now - st.balanceCacheTime < cacheDuration) := by
        rcases h with h | h
        · rw [hcb] at h; cases h
        · exact not_lt.mpr h
      simp [hn]

theorem refreshPositions_fetched (st : TraderState) (now : Time) (f : PositionsResp) :
    (refreshPositions st now f).fetched = true := by
  unfold refreshPositions
  split <;> rfl

theorem refreshPositions_fail (st : TraderState) (now : Time) (f : PositionsResp)
    (h : f.err = true ∨ f.code ≠ 0) :
    refreshPositions st now f =
      { result := [], error := some "get positions failed", fetched := true
        state := st } := by
  unfold refreshPositions
  rw [if_pos h]

theorem refreshPositions_success (st : TraderState) (now : Time) (f : PositionsResp)
    (he : f.err = false) (hc : f.code = 0) :
    refreshPositions st now f =
      { result := ingestPositions f.positions, error := none, fetched := true
        state := { st with cachedPositions := toGoSlice (ingestPositions f.positions), positionsCacheTime := now } } := by
  unfold refreshPositions
  rw [if_neg (by simp [he, hc])]

theorem getPositions_hit (st : TraderState) (now : Time) (pf : PositionsResp)
    (l : List Position) (hb : st.cachedPositions = some l)
    (hlt : now - st.positionsCacheTime < cacheDuration) :
    getPositions st now pf =
      { result := l, error := none, fetched := false, state := st } := by
  unfold getPositions
  rw [hb]
  simp [hlt]

theorem getPositions_miss (st : TraderState) (now : Time) (pf : PositionsResp)
    (h : st.cachedPositions = none ∨ cacheDuration ≤ now - st.positionsCacheTime) :
    getPositions st now pf = refreshPositions st now pf := by
  unfold getPositions
  cases hcb : st.cachedPositions with
  | none => rfl
  | some l =>
      have hn : ¬ (now - st.positionsCacheTime < cacheDuration) := by
        rcases h with h | h
        · rw [hcb] at h; cases h
        · exact not_lt.mpr h
      simp [hn]

theorem formatQuantity_snd_none (f : InstrumentsResp) (s : String) (q : ℚ) :
    (formatQuantity f s q).2 = none := by
  unfold formatQuantity
  rcases h : getSymbolPrecision f s with ⟨p, e⟩
  rcases e with _ | e <;> simp [h]

theorem closeAfterResolve_resolvedQty (msg : String) (st : TraderState)
    (sym : String) (q : ℚ) (fetched : Bool) (iF : InstrumentsResp)
    (cR : CodeResp) (lR : OrderListResp) (caR : CodeResp) :
    (closeAfterResolve msg st sym q fetched iF cR lR caR).resolvedQty = some q := by
  unfold closeAfterResolve
  rcases hfq : formatQuantity iF sym q with ⟨s, e⟩
  have he : e = none := by
    have h2 := formatQuantity_snd_none iF sym q
    rw [hfq] at h2
    exact h2
  subst he
  dsimp only
  split <;> rfl

/-! ## Claim theorems -/

/-- C10: `GetPositions` populates each record's `symbol` field from the
exchange record's instrument-type field (`InstType`), not from its
instrument identifier, so the symbol comparisons in the
`CloseLong`/`CloseShort` quantity-resolution loops and in `SetLeverage`'s
observed-leverage lookup match the caller-supplied symbol against the
instrument type. -/
theorem position_symbol_is_instType :
    (∀ r : RawPosition, (toPosition r).symbol = r.instType)
  ∧ (∀ (sym : String) (r : RawPosition) (rest : List Position),
      findCloseQtyLong sym (toPosition r :: rest)
        = if r.instType = sym ∧ r.posSide = "long" then r.pos
          else findCloseQtyLong sym rest)
  ∧ (∀ (sym : String) (r : RawPosition) (rest : List Position),
      findCloseQtyShort sym (toPosition r :: rest)
        = if r.instType = sym ∧ r.posSide = "short" then -r.pos
          else findCloseQtyShort sym rest)
  ∧ (∀ (sym : String) (r : RawPosition) (rest : List Position),
      findLeverage sym (toPosition r :: rest)
        = if r.instType = sym then truncInt r.lever
          else findLeverage sym rest) :=
  ⟨fun _ => rfl, fun _ _ _ => rfl, fun _ _ _ => rfl, fun _ _ _ => rfl⟩

/-- C9: `CancelAllOrders` does not restrict cancellation to the given
symbol: called for `BTC-USDT-SWAP` while the account-wide open-order list
holds a single `ETH-USDT-SWAP` order, it issues a batch cancel containing
that other symbol's order (the order list request carries no symbol
filter, and every listed order is cancelled). -/
theorem cancelAllOrders_ignores_symbol :
    cancelAllOrders "BTC-USDT-SWAP"
        { err := false, orders := [{ instID := "ETH-USDT-SWAP", algoID := 7 }] }
        { err := false, code := 0 }
      = { error := none, cancelIssued := true
          cancelReq := [("ETH-USDT-SWAP", 7)] } := by
  decide

/-- C1: when the leverage-change call inside `OpenLong`/`OpenShort`
completes without transport error but returns the non-success status code
1, the operation aborts without placing an order, yet returns a nil error
together with a nil result: the caller cannot observe the failure. -/
theorem open_nonsuccess_leverage_silent_abort :
    openLong "BTC-USDT-SWAP" 1 10 { err := false, orders := [] }
        { err := false, code := 0 } { err := false, code := 1 }
        { err := false, code := 0, instruments := [] }
        { err := false, code := 0, placeOrders := [] }
      = { result := none, error := none, panicked := false, orderReq := none }
  ∧ openShort "BTC-USDT-SWAP" 1 10 { err := false, orders := [] }
        { err := false, code := 0 } { err := false, code := 1 }
        { err := false, code := 0, instruments := [] }
        { err := false, code := 0, placeOrders := [] }
      = { result := none, error := none, panicked := false, orderReq := none } := by
  decide

/-- C2: two successive `SetLeverage("BTC-USDT-SWAP", 10)` calls, with the
exchange already reporting leverage 10 for that instrument and both
leverage-change calls succeeding, issue TWO leverage-change network calls
and TWO cooldown waits: the observed-leverage lookup compares the caller's
symbol against the cached record's `symbol` field, which holds the
instrument type `FUTURES`, so it never matches and the no-op path is
unreachable (the second call even serves the positions from cache without
a fresh fetch). -/
theorem setLeverage_twice_writes_twice :
    levCall1.wrote = true ∧ levCall1.sleptFor = leverageCooldown
  ∧ levCall1.error = none
  ∧ levCall2.wrote = true ∧ levCall2.sleptFor = leverageCooldown
  ∧ levCall2.error = none ∧ levCall2.posFetched = false
  ∧ findLeverage "BTC-USDT-SWAP" (ingestPositions [rawBtcPos]) = 0 := by
  decide

/-- C8: exchange responses that are transport-error-free but contain an
empty list where an entry is expected make the code index element 0 of an
empty list (a runtime panic), with no error returned: `GetBalance` with a
present-but-empty balances list, and `OpenLong` whose order placement
returns success code 0 with zero placed orders. -/
theorem empty_list_responses_panic :
    (getBalance initialState 100 { err := false, balances := some [] }).panicked = true
  ∧ (getBalance initialState 100 { err := false, balances := some [] }).error = none
  ∧ (openLong "BTC-USDT-SWAP" 1 10 { err := false, orders := [] }
      { err := false, code := 0 } { err := false, code := 200 }
      { err := false, code := 0, instruments := [] }
      { err := false, code := 0, placeOrders := [] }).panicked = true
  ∧ (openLong "BTC-USDT-SWAP" 1 10 { err := false, orders := [] }
      { err := false, code := 0 } { err := false, code := 200 }
      { err := false, code := 0, instruments := [] }
      { err := false, code := 0, placeOrders := [] }).error = none := by
  decide

/-- C3: `SetLeverage` sleeps the 5-second cooldown exactly when the
leverage-change call was issued and succeeded: the wait follows every
successful change, and never happens on the no-op path (where no change
call is issued) nor when the change call fails. -/
theorem setLeverage_cooldown_iff_change (st : TraderState) (now : Time)
    (symbol : String) (leverage : Int) (posFetch : PositionsResp)
    (levResp : LevResp) :
    (setLeverageOp st now symbol leverage posFetch levResp).sleptFor
      = if (setLeverageOp st now symbol leverage posFetch levResp).wrote = true
            ∧ levResp.err = false ∧ levResp.code = 0
        then leverageCooldown else 0 := by
  simp only [setLeverageOp]
  by_cases hnoop :
      ((if (getPositions st now posFetch).error = none then
          findLeverage symbol (getPositions st now posFetch).result else 0) = leverage
        ∧ 0 < (if (getPositions st now posFetch).error = none then
          findLeverage symbol (getPositions st now posFetch).result else 0))
  · simp only [if_pos hnoop]
    simp
  · simp only [if_neg hnoop]
    by_cases hfail : levResp.err = true ∨ levResp.code ≠ 0
    · simp only [if_pos hfail]
      rcases hfail with h | h <;> simp [h]
    · simp only [if_neg hfail]
      have he : levResp.err = false := by
        cases hx : levResp.err
        · rfl
        · exact absurd (Or.inl hx) hfail
      have hc : levResp.code = 0 := by
        by_contra hcn
        exact hfail (Or.inr hcn)
      simp [he, hc]

/-- C7: `FormatQuantity` never returns a non-nil error, and whenever
precision resolution fails (transport error on the metadata fetch, or no
instrument entry matching the symbol) it falls back to the default
precision 3, returning the quantity formatted to 3 fractional digits. -/
theorem formatQuantity_never_errors (f : InstrumentsResp) (s : String) (q : ℚ) :
    (formatQuantity f s q).2 = none
  ∧ ((f.err = true ∨ findInst s f.instruments = none) →
      (formatQuantity f s q).1 = formatFixed 3 q) := by
  refine ⟨formatQuantity_snd_none f s q, ?_⟩
  intro hf
  unfold formatQuantity getSymbolPrecision
  rcases hf with h | h
  · simp [h]
  · cases he : f.err
    · simp [he, h]
    · simp [he]

/-- C7 witness: a metadata fetch with no matching instrument entry yields
a nil error and the default 3-digit format. -/
theorem formatQuantity_never_errors_check :
    (formatQuantity { err := false, code := 0, instruments := [] } "BTC-USDT-SWAP" 1).2 = none
  ∧ (formatQuantity { err := false, code := 0, instruments := [] } "BTC-USDT-SWAP" 1).1
      = formatFixed 3 1 :=
  ⟨(formatQuantity_never_errors { err := false, code := 0, instruments := [] } "BTC-USDT-SWAP" 1).1,
   (formatQuantity_never_errors { err := false, code := 0, instruments := [] } "BTC-USDT-SWAP" 1).2
     (Or.inr rfl)⟩

/-- C4: read-through cache behaviour of `GetBalance` and `GetPositions`:
with a cache entry whose age is strictly below the 15-second TTL the
cached value is returned, no fetch happens and the state is unchanged;
with no entry or an age at or beyond the TTL exactly one fetch happens
and, on success, the fresh value is stored with the fetch timestamp set to
now. -/
theorem cache_read_through (st : TraderState) (now : Time)
    (bf : BalanceResp) (pf : PositionsResp) :
    (∀ b, st.cachedBalance = some b → now - st.balanceCacheTime < cacheDuration →
        getBalance st now bf =
          { result := some b, error := none, panicked := false, fetched := false
            state := st })
  ∧ ((st.cachedBalance = none ∨ cacheDuration ≤ now - st.balanceCacheTime) →
        (getBalance st now bf).fetched = true
      ∧ ∀ a rest, bf.err = false → bf.balances = some (a :: rest) →
          getBalance st now bf =
            { result := some (mkBalance a), error := none, panicked := false
              fetched := true
              state := { st with cachedBalance := some (mkBalance a), balanceCacheTime := now } })
  ∧ (∀ l, st.cachedPositions = some l → now - st.positionsCacheTime < cacheDuration →
        getPositions st now pf =
          { result := l, error := none, fetched := false, state := st })
  ∧ ((st.cachedPositions = none ∨ cacheDuration ≤ now - st.positionsCacheTime) →
        (getPositions st now pf).fetched = true
      ∧ (pf.err = false → pf.code = 0 →
          getPositions st now pf =
            { result := ingestPositions pf.positions, error := none, fetched := true
              state := { st with cachedPositions := toGoSlice (ingestPositions pf.positions), positionsCacheTime := now } })) := by
  refine ⟨?_, ?_, ?_, ?_⟩
  · intro b hb hlt
    exact getBalance_hit st now bf b hb hlt
  · intro h
    constructor
    · rw [getBalance_miss st now bf h]
      exact refreshBalance_fetched st now bf
    · intro a rest he hbal
      rw [getBalance_miss st now bf h]
      exact refreshBalance_success st now bf a rest he hbal
  · intro l hb hlt
    exact getPositions_hit st now pf l hb hlt
  · intro h
    constructor
    · rw [getPositions_miss st now pf h]
      exact refreshPositions_fetched st now pf
    · intro he hc
      rw [getPositions_miss st now pf h]
      exact refreshPositions_success st now pf he hc

/-- C4 witness: a balance read 5 seconds after the cached refresh returns
the cached value with no fetch and an unchanged state. -/
theorem cache_read_through_check :
    getBalance c4state 105 { err := false, balances := none } =
      { result := some bW, error := none, panicked := false, fetched := false
        state := c4state } :=
  (cache_read_through c4state 105 { err := false, balances := none }
      { err := false, code := 0, positions := [] }).1 bW rfl (by decide)

/-- C5: a failed cache refresh (transport error, nil balances, or
non-success status code) returns an error, returns no stale value, leaves
the cached entry and timestamp completely unchanged, and a subsequent read
at any later time before a successful refresh fetches again. -/
theorem cache_failure_isolation (st : TraderState) (now now2 : Time)
    (bf bf2 : BalanceResp) (pf pf2 : PositionsResp) :
    ((st.cachedBalance = none ∨ cacheDuration ≤ now - st.balanceCacheTime) →
      (bf.err = true ∨ bf.balances = none) →
        (getBalance st now bf).error.isSome = true
      ∧ (getBalance st now bf).result = none
      ∧ (getBalance st now bf).state = st
      ∧ (now ≤ now2 →
          (getBalance ((getBalance st now bf).state) now2 bf2).fetched = true))
  ∧ ((st.cachedPositions = none ∨ cacheDuration ≤ now - st.positionsCacheTime) →
      (pf.err = true ∨ pf.code ≠ 0) →
        (getPositions st now pf).error.isSome = true
      ∧ (getPositions st now pf).result = []
      ∧ (getPositions st now pf).state = st
      ∧ (now ≤ now2 →
          (getPositions ((getPositions st now pf).state) now2 pf2).fetched = true)) := by
  constructor
  · intro hmiss hfail
    rw [getBalance_miss st now bf hmiss, refreshBalance_fail st now bf hfail]
    refine ⟨rfl, rfl, rfl, ?_⟩
    intro hle
    have hmiss2 : st.cachedBalance = none ∨ cacheDuration ≤ now2 - st.balanceCacheTime := by
      rcases hmiss with h | h
      · exact Or.inl h
      · exact Or.inr (le_trans h (Nat.sub_le_sub_right hle _))
    rw [getBalance_miss st now2 bf2 hmiss2]
    exact refreshBalance_fetched st now2 bf2
  · intro hmiss hfail
    rw [getPositions_miss st now pf hmiss, refreshPositions_fail st now pf hfail]
    refine ⟨rfl, rfl, rfl, ?_⟩
    intro hle
    have hmiss2 : st.cachedPositions = none ∨ cacheDuration ≤ now2 - st.positionsCacheTime := by
      rcases hmiss with h | h
      · exact Or.inl h
      · exact Or.inr (le_trans h (Nat.sub_le_sub_right hle _))
    rw [getPositions_miss st now2 pf2 hmiss2]
    exact refreshPositions_fetched st now2 pf2

/-- C5 witness: a transport-error refresh on a fresh trader returns an
error and the immediately following read fetches again. -/
theorem cache_failure_isolation_check :
    (getBalance initialState 0 { err := true, balances := none }).error.isSome = true
  ∧ (getBalance ((getBalance initialState 0 { err := true, balances := none }).state) 1
      { err := true, balances := none }).fetched = true :=
  ⟨((cache_failure_isolation initialState 0 1 { err := true, balances := none }
        { err := true, balances := none } { err := false, code := 0, positions := [] }
        { err := false, code := 0, positions := [] }).1
      (Or.inl rfl) (Or.inl rfl)).1,
   ((cache_failure_isolation initialState 0 1 { err := true, balances := none }
        { err := true, balances := none } { err := false, code := 0, positions := [] }
        { err := false, code := 0, positions := [] }).1
      (Or.inl rfl) (Or.inl rfl)).2.2.2 (by decide)⟩

theorem findCloseQtyShort_nomatch (sym : String) (L : List Position)
    (h : ∀ p ∈ L, ¬(p.symbol = sym ∧ p.side = "short")) :
    findCloseQtyShort sym L = 0 := by
  induction L with
  | nil => rfl
  | cons p rest ih =>
      simp only [findCloseQtyShort]
      rw [if_neg (h p (by simp))]
      exact ih fun q hq => h q (by simp [hq])

theorem findCloseQtyLong_nomatch (sym : String) (L : List Position)
    (h : ∀ p ∈ L, ¬(p.symbol = sym ∧ p.side = "long")) :
    findCloseQtyLong sym L = 0 := by
  induction L with
  | nil => rfl
  | cons p rest ih =>
      simp only [findCloseQtyLong]
      rw [if_neg (h p (by simp))]
      exact ih fun q hq => h q (by simp [hq])

/-- C6: `CloseLong`/`CloseShort` called with quantity 0 read the positions
list; the first entry matching the symbol and side supplies the close
quantity as its magnitude (for a short entry the stored quantity is
negative and the close quantity is its negation); when no entry matches,
the call fails with a no-position-found error and issues no close call. -/
theorem close_zero_quantity_resolution (st : TraderState) (now : Time)
    (sym : String) (L : List Position) (pf : PositionsResp)
    (iF : InstrumentsResp) (cR : CodeResp) (lR : OrderListResp)
    (caR : CodeResp) (hcache : st.cachedPositions = some L)
    (hfresh : now - st.positionsCacheTime < cacheDuration) :
    (∀ (p : Position) (rest : List Position), p.symbol = sym → p.side = "short" →
        p.positionAmt < 0 → findCloseQtyShort sym (p :: rest) = |p.positionAmt|)
  ∧ (∀ (p : Position) (rest : List Position), p.symbol = sym → p.side = "long" →
        0 < p.positionAmt → findCloseQtyLong sym (p :: rest) = |p.positionAmt|)
  ∧ (findCloseQtyShort sym L ≠ 0 →
        (closeShort st now sym 0 pf iF cR lR caR).resolvedQty
          = some (findCloseQtyShort sym L))
  ∧ (findCloseQtyLong sym L ≠ 0 →
        (closeLong st now sym 0 pf iF cR lR caR).resolvedQty
          = some (findCloseQtyLong sym L))
  ∧ ((∀ p ∈ L, ¬(p.symbol = sym ∧ p.side = "short")) →
        (closeShort st now sym 0 pf iF cR lR caR).error.isSome = true
      ∧ (closeShort st now sym 0 pf iF cR lR caR).closeIssued = false)
  ∧ ((∀ p ∈ L, ¬(p.symbol = sym ∧ p.side = "long")) →
        (closeLong st now sym 0 pf iF cR lR caR).error.isSome = true
      ∧ (closeLong st now sym 0 pf iF cR lR caR).closeIssued = false) := by
  have hget := getPositions_hit st now pf L hcache hfresh
  refine ⟨?_, ?_, ?_, ?_, ?_, ?_⟩
  · intro p rest hs hside hneg
    simp only [findCloseQtyShort]
    rw [if_pos ⟨hs, hside⟩, abs_of_neg hneg]
  · intro p rest hs hside hpos
    simp only [findCloseQtyLong]
    rw [if_pos ⟨hs, hside⟩, abs_of_pos hpos]
  · intro hq
    unfold closeShort
    rw [if_pos rfl, hget]
    dsimp only
    rw [if_neg hq]
    exact closeAfterResolve_resolvedQty "close short failed" st sym
      (findCloseQtyShort sym L) false iF cR lR caR
  · intro hq
    unfold closeLong
    rw [if_pos rfl, hget]
    dsimp only
    rw [if_neg hq]
    exact closeAfterResolve_resolvedQty "close long failed" st sym
      (findCloseQtyLong sym L) false iF cR lR caR
  · intro hnone
    unfold closeShort
    rw [if_pos rfl, hget]
    dsimp only
    rw [if_pos (findCloseQtyShort_nomatch sym L hnone)]
    exact ⟨rfl, rfl⟩
  · intro hnone
    unfold closeLong
    rw [if_pos rfl, hget]
    dsimp only
    rw [if_pos (findCloseQtyLong_nomatch sym L hnone)]
    exact ⟨rfl, rfl⟩

/-- C6 witness: with a cached short position of stored quantity -3 on
symbol `BTC-FUTURES`, `CloseShort("BTC-FUTURES", 0)` resolves the close
quantity to 3. -/
theorem close_zero_quantity_resolution_check :
    (closeShort c6state 105 "BTC-FUTURES" 0 { err := false, code := 0, positions := [] }
        { err := false, code := 0, instruments := [] } { err := false, code := 0 }
        { err := false, orders := [] } { err := false, code := 0 }).resolvedQty
      = some 3 := by
  have h := (close_zero_quantity_resolution c6state 105 "BTC-FUTURES" [shortPosW]
      { err := false, code := 0, positions := [] }
      { err := false, code := 0, instruments := [] } { err := false, code := 0 }
      { err := false, orders := [] } { err := false, code := 0 }
      rfl (by decide)).2.2.1 (by decide)
  rw [h]
  decide

end NoFx
